import Mathlib

/-!
Shallow embedding of `email_bot/UCI_Support_bot/gmail_bot.py` (class
`UciSupportBot`) and proofs about the behaviour of its link extraction,
send composition, run orchestration and validation logic.

Strings are modelled as `List Char`; Python string primitives
(`str.split`, `str.count`, `str.endswith`, `urllib.parse.unquote`,
the `re` pattern used by the bot) are embedded below with their
Python semantics.
-/

namespace UciBot

/-- Python `str.split(sep)` for a single-character separator: splits at every
occurrence of the separator, keeping empty segments; `"".split(',') == ['']`. -/
def pySplit (sep : Char) : List Char → List (List Char)
  | [] => [[]]
  | c :: rest =>
    if c = sep then [] :: pySplit sep rest
    else
      match pySplit sep rest with
      | [] => [[c]]
      | seg :: segs => (c :: seg) :: segs

/-- Auxiliary recursion for Python `str.count`, with fuel bounded by the
length of the scanned string plus one. Counts non-overlapping occurrences,
scanning left to right. -/
def pyCountAux (sub : List Char) : Nat → List Char → Nat
  | 0, _ => 0
  | fuel + 1, s =>
    if sub.isPrefixOf s then 1 + pyCountAux sub fuel (s.drop sub.length)
    else
      match s with
      | [] => 0
      | _ :: t => pyCountAux sub fuel t

/-- Python `s.count(sub)`: number of non-overlapping occurrences of `sub`
in `s`, scanning left to right. -/
def pyCount (s sub : List Char) : Nat := pyCountAux sub (s.length + 1) s

/-- The institutional domain suffix `UciSupportBot.uci_domain`. -/
def uciDomain : List Char := "@uci.edu".data

/-- The exception raised by the `email` property setter when validation
fails (`UciInvalidEmail` in the source). -/
structure UciInvalidEmail where
  msg : String
deriving Repr, DecidableEq

/-- The guard of the `UciSupportBot.email` setter: the length exceeds the
length of `@uci.edu`, the address ends with `@uci.edu`, and it contains
exactly one occurrence of `@uci.edu` (Python
`len(email_address) > len(self.uci_domain) and email_address.endswith(...)
and email_address.count(...) == 1`). -/
def emailOk (s : List Char) : Bool :=
  uciDomain.length < s.length && uciDomain.isSuffixOf s
    && (pyCount s uciDomain == 1)

/-- The `UciSupportBot.email` setter: stores the address when `emailOk`
holds; otherwise raises `UciInvalidEmail`. -/
def emailSetter (s : List Char) : Except UciInvalidEmail (List Char) :=
  if emailOk s then
    Except.ok s
  else
    Except.error ⟨"UciSupportBot.email: email_address must contain only 1 @uci.edu, end with @uci.edu, and the length has to be greater than length of @uci.edu"⟩

/-- Python `str.lower`, restricted to the ASCII case mapping used by the
bot's three recognized answers. -/
def pyLower (s : List Char) : List Char := s.map Char.toLower

/-- The `UciSupportBot.response` setter: accepts (case-insensitively)
`not today`, `no` or `yes`, storing the lowercased value; otherwise raises
`ValueError`. -/
def responseSetter (r : List Char) : Except String (List Char) :=
  if pyLower r = "not today".data ∨ pyLower r = "no".data ∨ pyLower r = "yes".data then
    Except.ok (pyLower r)
  else
    Except.error "UciSupportBot.response: given response must be Not Today/No/Yes"

/-- True of every character the regex atom `.` can consume (anything except
a newline, since the pattern is compiled without `re.DOTALL`). -/
def notNL (c : Char) : Bool := c != '\n'

/-- The literal head `mailto:` of the bot's pattern. -/
def litMailto : List Char := "mailto:".data

/-- The literal `?subject=` separating the `emails` and `subject` groups
(`\?subject=` in the pattern). -/
def litSubject : List Char := "?subject=".data

/-- The literal `&amp;body=` separating the `subject` and `body` groups. -/
def litBody : List Char := "&amp;body=".data

/-- The three named capture groups of one `re.Match` of the bot's pattern
`mailto:(?P<emails>.+)\?subject=(?P<subject>.+)&amp;body=(?P<body>.+)`. -/
structure MatchT where
  emails : List Char
  subject : List Char
  body : List Char
deriving DecidableEq, Repr

/-- Greedy backtracking for `(?P<subject>.+)&amp;body=(?P<body>.+)` at the
head of `u`: tries the longest `subject` candidate first (lengths `k+1`
down to `1`); after the `&amp;body=` literal, the greedy `body` group takes
the rest of the line and must be nonempty. Returns the two groups and the
number of characters consumed. -/
def searchG2 (u : List Char) : Nat → Option (List Char × List Char × Nat)
  | 0 => none
  | k + 1 =>
    if litBody.isPrefixOf (u.drop (k + 1)) then
      let g3 := (u.drop (k + 1 + litBody.length)).takeWhile notNL
      if 1 ≤ g3.length then
        some (u.take (k + 1), g3, k + 1 + litBody.length + g3.length)
      else searchG2 u k
    else searchG2 u k

/-- Matches `(?P<subject>.+)&amp;body=(?P<body>.+)` at the head of `u`,
with the greedy `subject` group bounded by the current line. -/
def matchTail (u : List Char) : Option (List Char × List Char × Nat) :=
  searchG2 u (u.takeWhile notNL).length

/-- Greedy backtracking for the `emails` group: `t` is the text right after
the `mailto:` literal; tries the longest `emails` candidate first, requiring
the `?subject=` literal and then `matchTail` to succeed after it. Returns
the full match's groups and total length (measured from the `mailto:`). -/
def searchG1 (t : List Char) : Nat → Option (MatchT × Nat)
  | 0 => none
  | k + 1 =>
    if litSubject.isPrefixOf (t.drop (k + 1)) then
      match matchTail (t.drop (k + 1 + litSubject.length)) with
      | some (g2, g3, c2) =>
        some (⟨t.take (k + 1), g2, g3⟩,
          litMailto.length + (k + 1) + litSubject.length + c2)
      | none => searchG1 t k
    else searchG1 t k

/-- Attempts to match the bot's pattern starting exactly at the head of `s`,
with Python `re` greedy-backtracking semantics; returns the match's groups
and its total length. -/
def matchMailtoAt (s : List Char) : Option (MatchT × Nat) :=
  if litMailto.isPrefixOf s then
    let t := s.drop litMailto.length
    searchG1 t (t.takeWhile notNL).length
  else none

/-- Auxiliary recursion for `re.finditer`, with fuel bounded by the length
of the scanned string plus one: at each position tries `matchMailtoAt`;
on success emits the match and resumes right after its end (every match
here is at least one character long), otherwise advances one character. -/
def finditerAux : Nat → List Char → List MatchT
  | 0, _ => []
  | fuel + 1, s =>
    match s with
    | [] => []
    | _ :: rest =>
      match matchMailtoAt s with
      | some (m, len) => m :: finditerAux fuel (s.drop (max len 1))
      | none => finditerAux fuel rest

/-- `re.finditer` of the bot's mailto pattern over a message body:
non-overlapping matches, leftmost first, in left-to-right order. -/
def mailtoFinditer (s : List Char) : List MatchT :=
  finditerAux (s.length + 1) s

/-- A retrieved mail item (`pyzmail.PyzMessage`) as the bot observes it: an
optional decoded HTML payload and an optional plain-text payload (the
latter is never read by the bot). -/
structure Message where
  htmlPart : Option (List Char)
  textPart : Option (List Char)
deriving DecidableEq, Repr

/-- `UciSupportBot._parse_email`: returns `none` when the message has no
HTML part, otherwise the finite sequence of pattern matches over the
decoded HTML payload (possibly empty). -/
def parseEmail (m : Message) : Option (List MatchT) :=
  match m.htmlPart with
  | some h => some (mailtoFinditer h)
  | none => none

/-- The positional index the configured answer maps to, via the literal
dictionary `{'not today': 0, 'no': 1, 'yes': 2}.get(self.response)`. -/
def respIndex (r : List Char) : Option Nat :=
  if r = "not today".data then some 0
  else if r = "no".data then some 1
  else if r = "yes".data then some 2
  else none

/-- The loop of `UciSupportBot._parse_mailto_link`: walks the matches,
returning the one reached when the counter hits zero, `none` when the
sequence runs out first. -/
def linkLoop : Nat → List MatchT → Option MatchT
  | _, [] => none
  | 0, l :: _ => some l
  | c + 1, _ :: ls => linkLoop c ls

/-- `UciSupportBot._parse_mailto_link`: skips `respIndex` matches and
returns the next one. The `none` index branch is unreachable for a
response admitted by the `response` setter (in Python an unrecognized
response would make the loop body raise `TypeError` on a nonempty
sequence; the empty-sequence outcome `None` is the one modelled here). -/
def parseMailtoLink (resp : List Char) (links : List MatchT) : Option MatchT :=
  match respIndex resp with
  | some c => linkLoop c links
  | none => none

/-- `UciSupportBot._find_email`: scans the retrieved messages in order,
skipping those without HTML and those whose match sequence yields no link
for the configured answer; returns the first extracted link, `none`
(Python falls off the loop returning `None`) when no message yields one. -/
def findEmail (resp : List Char) : List Message → Option MatchT
  | [] => none
  | m :: ms =>
    match parseEmail m with
    | none => findEmail resp ms
    | some links =>
      match parseMailtoLink resp links with
      | none => findEmail resp ms
      | some content => some content

/-- True of a hexadecimal digit, the characters `urllib.parse.unquote`
accepts after a percent sign. -/
def isHexDigitChar (c : Char) : Bool :=
  c.isDigit || ('a' ≤ c && c ≤ 'f') || ('A' ≤ c && c ≤ 'F')

/-- Numeric value of a hexadecimal digit. -/
def hexVal (c : Char) : Nat :=
  if c.isDigit then c.toNat - 48
  else if 'a' ≤ c && c ≤ 'f' then c.toNat - 87
  else c.toNat - 55

/-- `urllib.parse.unquote`: replaces each `%XX` escape (two hex digits)
with the character it encodes, leaving malformed escapes untouched.
Faithful for the ASCII range; multi-byte UTF-8 escape sequences (bytes
`0x80` and above) are not modelled, and none appear in the bot's data. -/
def unquoteChars : List Char → List Char
  | '%' :: a :: b :: rest =>
    if isHexDigitChar a && isHexDigitChar b then
      Char.ofNat (16 * hexVal a + hexVal b) :: unquoteChars rest
    else '%' :: unquoteChars (a :: b :: rest)
  | c :: rest => c :: unquoteChars rest
  | [] => []

/-- True of the ASCII whitespace characters Python `str.strip()` removes. -/
def isPySpace (c : Char) : Bool :=
  c == ' ' || c == '\t' || c == '\n' || c == '\r' || c == '\x0b' || c == '\x0c'

/-- Python `str.strip()`: removes leading and trailing ASCII whitespace.
Used only to state what the spec claims about recipient handling; the
source never trims. -/
def trimChars (s : List Char) : List Char :=
  ((s.dropWhile isPySpace).reverse.dropWhile isPySpace).reverse

/-- The outbound message and envelope exactly as
`UciSupportBot._send_email` hands them to `smtplib.SMTP.sendmail`:
`From`/`To`/`Subject` headers, the attached plain-text body, and the
envelope recipient list (`emails.split(',')`). -/
structure SendCall where
  fromAddr : List Char
  toHeader : List Char
  subjectHeader : List Char
  bodyText : List Char
  toList : List (List Char)
deriving DecidableEq, Repr

/-- `UciSupportBot._send_email` (pure content): `To` is
`', '.join(emails.split(','))`, `Subject` is `unquote(subject)`, the body
is `unquote(body)`, and the envelope recipients are `emails.split(',')`
used verbatim. -/
def sendEmail (selfEmail emails subject body : List Char) : SendCall :=
  { fromAddr := selfEmail
    toHeader := List.intercalate ", ".data (pySplit ',' emails)
    subjectHeader := unquoteChars subject
    bodyText := unquoteChars body
    toList := pySplit ',' emails }

/-- The exception classes distinguished by `run_bot`'s `except` clauses,
plus one it does not handle (`smtplib.SMTPAuthenticationError`, raised by
`SMTP.login` on bad credentials). -/
inductive PyExc where
  | imapLoginError
  | socketGaierror
  | smtpAuthError
deriving DecidableEq, Repr

/-- The mutable attributes of a `UciSupportBot` instance, as set by
`__init__` and updated by `run_bot`. -/
structure BotState where
  email : List Char
  password : List Char
  response : List Char
  emailSent : Bool
  emailFound : Bool
deriving DecidableEq, Repr

/-- `UciSupportBot.bot_summary`: `return (self._email_sent, self._email_found)`. -/
def botSummary (st : BotState) : Bool × Bool := (st.emailSent, st.emailFound)

/-- The environment a single `run_bot` call interacts with: whether each
server creation step raises, the messages retrieval returns, and the
failed-recipients mapping `sendmail` reports (its keys). -/
structure RunEnv where
  imapCreate : Option PyExc
  smtpCreate : Option PyExc
  messages : List Message
  failedRecipients : List (List Char)
deriving Repr

/-- Everything observable about one `run_bot` call: the instance state
after the call, lines printed to standard output, the exception that
propagated to the caller (if any), which sessions were opened, how many
times each was released (`logout`/`quit`), and the send performed. -/
structure RunTrace where
  state : BotState
  printed : List String
  raised : Option PyExc
  imapOpened : Bool
  imapLogouts : Nat
  smtpOpened : Bool
  smtpQuits : Nat
  sentCall : Option SendCall
deriving Repr

/-- The diagnostic printed by the `imapclient.exceptions.LoginError` handler. -/
def imapLoginMsg : String :=
  "UciSupportBot.run_bot: Could not connect to a imap server. Given Credentials Invalid."

/-- The diagnostic printed by the `smtplib.socket.gaierror` handler. -/
def gaierrorMsg : String :=
  "UCISupportBot.run_bot: Failed to establish a connection."

/-- `UciSupportBot.run_bot`: creates the IMAP then the SMTP session (either
may raise), extracts a link from the retrieved messages, on success sets
`_email_found`, sends the reply and sets `_email_sent` iff the
failed-recipients mapping is empty. `LoginError` and `socket.gaierror` are
caught and printed; any other exception propagates. The `finally` block
releases exactly the sessions that were opened, on every path. -/
def runBot (env : RunEnv) (st : BotState) : RunTrace :=
  match env.imapCreate with
  | some e =>
    if e = PyExc.imapLoginError then
      { state := st, printed := [imapLoginMsg], raised := none,
        imapOpened := false, imapLogouts := 0,
        smtpOpened := false, smtpQuits := 0, sentCall := none }
    else if e = PyExc.socketGaierror then
      { state := st, printed := [gaierrorMsg], raised := none,
        imapOpened := false, imapLogouts := 0,
        smtpOpened := false, smtpQuits := 0, sentCall := none }
    else
      { state := st, printed := [], raised := some e,
        imapOpened := false, imapLogouts := 0,
        smtpOpened := false, smtpQuits := 0, sentCall := none }
  | none =>
    match env.smtpCreate with
    | some e =>
      if e = PyExc.imapLoginError then
        { state := st, printed := [imapLoginMsg], raised := none,
          imapOpened := true, imapLogouts := 1,
          smtpOpened := false, smtpQuits := 0, sentCall := none }
      else if e = PyExc.socketGaierror then
        { state := st, printed := [gaierrorMsg], raised := none,
          imapOpened := true, imapLogouts := 1,
          smtpOpened := false, smtpQuits := 0, sentCall := none }
      else
        { state := st, printed := [], raised := some e,
          imapOpened := true, imapLogouts := 1,
          smtpOpened := false, smtpQuits := 0, sentCall := none }
    | none =>
      match findEmail st.response env.messages with
      | none =>
        { state := st, printed := [], raised := none,
          imapOpened := true, imapLogouts := 1,
          smtpOpened := true, smtpQuits := 1, sentCall := none }
      | some content =>
        let st1 := { st with emailFound := true }
        let call := sendEmail st.email content.emails content.subject content.body
        let st2 :=
          if env.failedRecipients.length = 0 then { st1 with emailSent := true }
          else st1
        { state := st2, printed := [], raised := none,
          imapOpened := true, imapLogouts := 1,
          smtpOpened := true, smtpQuits := 1, sentCall := some call }

/-- Concrete HTML payload holding three mailto links on three lines,
matching the daily-check layout the selection indices assume. -/
def threeLinkHtml : List Char :=
  "mailto:x@uci.edu?subject=s1&amp;body=b1\nmailto:y@uci.edu?subject=s2&amp;body=b2\nmailto:z@uci.edu?subject=s3&amp;body=b3".data

/-- Concrete retrieved message whose HTML part is `threeLinkHtml`. -/
def threeLinkMsg : Message := ⟨some threeLinkHtml, none⟩

/-- Concrete freshly-constructed bot state with response `yes`. -/
def stYes : BotState :=
  ⟨"bot@uci.edu".data, "hunter2".data, "yes".data, false, false⟩

/-- Concrete bot state after a fully successful earlier run: both flags set. -/
def stFoundSent : BotState :=
  ⟨"bot@uci.edu".data, "hunter2".data, "yes".data, true, true⟩

/-- Concrete bot state with the found flag set but the sent flag clear. -/
def stFoundNotSent : BotState :=
  ⟨"bot@uci.edu".data, "hunter2".data, "yes".data, false, true⟩

/-- Concrete benign environment: both sessions open, one three-link
message retrieved, no delivery failures. -/
def envOk : RunEnv := ⟨none, none, [threeLinkMsg], []⟩

/-- Concrete benign environment in which retrieval returns no messages. -/
def envEmpty : RunEnv := ⟨none, none, [], []⟩

/-- Concrete environment in which SMTP authentication fails
(`smtplib.SMTPAuthenticationError` from `SMTP.login`). -/
def envSmtpAuth : RunEnv := ⟨none, some PyExc.smtpAuthError, [], []⟩

/-- Concrete environment in which the IMAP login is rejected
(`imapclient.exceptions.LoginError`). -/
def envImapLogin : RunEnv := ⟨some PyExc.imapLoginError, none, [], []⟩

/-- A well-formed single mailto link (first of the pair in `c10Body`). -/
def c10Link1 : List Char := "mailto:a@uci.edu?subject=Sub1&amp;body=Bod1".data

/-- A well-formed single mailto link (second of the pair in `c10Body`). -/
def c10Link2 : List Char := "mailto:b@uci.edu?subject=Sub2&amp;body=Bod2".data

/-- A message body carrying both links of `c10Link1`/`c10Link2` inside
anchor tags on one single line. -/
def c10Body : List Char :=
  "<a href=\"mailto:a@uci.edu?subject=Sub1&amp;body=Bod1\">L1</a> <a href=\"mailto:b@uci.edu?subject=Sub2&amp;body=Bod2\">L2</a>".data

/-- The `emails` group the scan actually captures on `c10Body`: it runs
from the first link's address through the second link's `mailto:`. -/
def c10Emails : List Char :=
  "a@uci.edu?subject=Sub1&amp;body=Bod1\">L1</a> <a href=\"mailto:b@uci.edu".data

/-- The `body` group the scan actually captures on `c10Body`. -/
def c10BodyGrp : List Char := "Bod2\">L2</a>".data

end UciBot

namespace UciBot

/-- C8: email-address construction succeeds, storing the address, exactly when
the string is a nonempty local part followed by the suffix `@uci.edu` and the
whole string contains exactly one (non-overlapping, Python `str.count`)
occurrence of `@uci.edu`; every other input raises `UciInvalidEmail`. -/
theorem email_setter_ok_iff (s : List Char) :
    (emailSetter s = Except.ok s ↔
      ∃ p : List Char, p ≠ [] ∧ s = p ++ uciDomain ∧ pyCount s uciDomain = 1) ∧
    (emailSetter s ≠ Except.ok s → ∃ e, emailSetter s = Except.error e) := by
  have hiff : emailOk s = true ↔
      ∃ p : List Char, p ≠ [] ∧ s = p ++ uciDomain ∧ pyCount s uciDomain = 1 := by
    unfold emailOk
    simp only [Bool.and_eq_true, decide_eq_true_eq, List.isSuffixOf_iff_suffix,
      beq_iff_eq]
    constructor
    · rintro ⟨⟨hlen, hsuf⟩, hcount⟩
      obtain ⟨p, hp⟩ := hsuf
      refine ⟨p, ?_, hp.symm, hcount⟩
      rintro rfl
      simp only [List.nil_append] at hp
      subst hp
      exact absurd hlen (lt_irrefl _)
    · rintro ⟨p, hpne, rfl, hcount⟩
      refine ⟨⟨?_, ⟨p, rfl⟩⟩, hcount⟩
      simp only [List.length_append]
      cases p with
      | nil => exact absurd rfl hpne
      | cons a t => simp only [List.length_cons]; omega
  constructor
  · rw [← hiff]
    unfold emailSetter
    cases hb : emailOk s with
    | true => simp [hb]
    | false => simp [hb]
  · intro hne
    unfold emailSetter at hne ⊢
    cases hb : emailOk s with
    | true => simp [hb] at hne
    | false =>
      rw [if_neg (by simp [hb])]
      exact ⟨_, rfl⟩

/-- Witness for C8: the concrete address `a@uci.edu` is accepted, via
`email_setter_ok_iff` applied at that input. -/
theorem email_setter_ok_iff_witness :
    emailSetter "a@uci.edu".data = Except.ok "a@uci.edu".data :=
  (email_setter_ok_iff "a@uci.edu".data).1.mpr
    ⟨"a".data, by decide, by decide, by decide⟩

theorem linkLoop_eq_get (c : Nat) (links : List MatchT) :
    linkLoop c links = links[c]? := by
  induction links generalizing c with
  | nil => cases c <;> simp [linkLoop]
  | cons l ls ih =>
    cases c with
    | zero => simp [linkLoop]
    | succ n => simp [linkLoop, ih]

/-- C1: the configured answer maps to the fixed index (`not today → 0`,
`no → 1`, `yes → 2`) and extraction returns, for the first message (in
retrieval order) whose match sequence is long enough, the match at exactly
that index in left-to-right order; messages with too few matches are
passed over, and if no message yields a match extraction returns `none`. -/
theorem find_email_selects_indexed_match (resp : List Char) (i : Nat)
    (msgs : List Message) (h : respIndex resp = some i) :
    findEmail resp msgs =
      msgs.findSome? (fun m => (parseEmail m).bind (fun links => links[i]?)) ∧
    respIndex "not today".data = some 0 ∧
    respIndex "no".data = some 1 ∧
    respIndex "yes".data = some 2 := by
  refine ⟨?_, by decide, by decide, by decide⟩
  induction msgs with
  | nil => simp [findEmail]
  | cons m ms ih =>
    have hl : ∀ links : List MatchT, parseMailtoLink resp links = links[i]? := by
      intro links
      unfold parseMailtoLink
      rw [h]
      exact linkLoop_eq_get i links
    cases hp : parseEmail m with
    | none => simp [findEmail, hp, ih]
    | some links =>
      cases hg : links[i]? with
      | none => simp [findEmail, hp, hl, hg, ih]
      | some c => simp [findEmail, hp, hl, hg]

/-- Witness for C1: with answer `yes` (index 2) and one concrete three-link
message, `find_email_selects_indexed_match` applies and the extractor's
result is the third match. -/
theorem find_email_selects_indexed_match_witness :
    findEmail "yes".data [threeLinkMsg] =
      [threeLinkMsg].findSome?
        (fun m => (parseEmail m).bind (fun links => links[2]?)) ∧
    findEmail "yes".data [threeLinkMsg] =
      some ⟨"z@uci.edu".data, "s3".data, "b3".data⟩ :=
  ⟨(find_email_selects_indexed_match "yes".data 2 [threeLinkMsg] rfl).1,
    by decide⟩

/-- C9: a retrieved message without an HTML part is skipped entirely by
extraction — `_parse_email` returns `none` on it whatever its plain-text
part holds, and `_find_email` proceeds to the remaining messages as a
normal non-match. -/
theorem no_html_message_skipped (m : Message) (resp : List Char)
    (msgs : List Message) (h : m.htmlPart = none) :
    parseEmail m = none ∧
    findEmail resp (m :: msgs) = findEmail resp msgs := by
  have hp : parseEmail m = none := by
    unfold parseEmail
    rw [h]
  exact ⟨hp, by simp [findEmail, hp]⟩

/-- Witness for C9: a concrete message whose plain-text part even contains
a well-formed mailto link, but which has no HTML part, contributes
nothing: extraction over it alone returns `none`. -/
theorem no_html_message_skipped_witness :
    parseEmail ⟨none, some c10Link1⟩ = none ∧
    findEmail "yes".data [⟨none, some c10Link1⟩] = none := by
  have h := no_html_message_skipped ⟨none, some c10Link1⟩ "yes".data [] rfl
  exact ⟨h.1, h.2.trans rfl⟩

set_option maxRecDepth 8192 in
set_option maxHeartbeats 1000000 in
/-- C10: on a body holding two well-formed mailto links on a single line,
the scan produces exactly one match for the whole body; its `emails`
capture group is greedy and spans from inside the first link through the
second link's `mailto:`, so matches are not in one-to-one correspondence
with links sharing a line. -/
theorem greedy_match_spans_two_links :
    mailtoFinditer c10Link1 = [⟨"a@uci.edu".data, "Sub1".data, "Bod1".data⟩] ∧
    mailtoFinditer c10Link2 = [⟨"b@uci.edu".data, "Sub2".data, "Bod2".data⟩] ∧
    c10Link1 <:+: c10Body ∧
    c10Link2 <:+: c10Body ∧
    pyCount c10Body litMailto = 2 ∧
    mailtoFinditer c10Body = [⟨c10Emails, "Sub2".data, c10BodyGrp⟩] ∧
    pyCount c10Emails litMailto = 1 := by
  decide

/-- Counterexample to C2 as stated: the envelope recipients actually
passed to `sendmail` are the raw comma-split segments — ` y%40uci.edu`
keeps its leading space and its percent escape — so they are neither
trimmed nor percent-decoded, in either order of those two operations. -/
theorem send_recipients_untouched_counterexample :
    (sendEmail "bot@uci.edu".data "x@uci.edu, y%40uci.edu".data
        "Stay%20Home".data "I%20am%20fine".data).toList =
      ["x@uci.edu".data, " y%40uci.edu".data] ∧
    (sendEmail "bot@uci.edu".data "x@uci.edu, y%40uci.edu".data
        "Stay%20Home".data "I%20am%20fine".data).toList ≠
      (pySplit ',' "x@uci.edu, y%40uci.edu".data).map
        (fun r => unquoteChars (trimChars r)) ∧
    (sendEmail "bot@uci.edu".data "x@uci.edu, y%40uci.edu".data
        "Stay%20Home".data "I%20am%20fine".data).toList ≠
      (pySplit ',' "x@uci.edu, y%40uci.edu".data).map
        (fun r => trimChars (unquoteChars r)) := by
  decide

/-- C2 (amended): before the outbound message is composed, the subject and
body captured groups are percent-decoded exactly once; the recipients
group is split on commas and each raw segment is used verbatim as a
destination address — neither percent-decoded nor trimmed — while the `To`
header rejoins those raw segments with `', '`. -/
theorem send_email_composition (selfEmail emails subject body : List Char) :
    (sendEmail selfEmail emails subject body).subjectHeader =
      unquoteChars subject ∧
    (sendEmail selfEmail emails subject body).bodyText = unquoteChars body ∧
    (sendEmail selfEmail emails subject body).toList = pySplit ',' emails ∧
    (sendEmail selfEmail emails subject body).toHeader =
      List.intercalate ", ".data (pySplit ',' emails) ∧
    (sendEmail selfEmail emails subject body).fromAddr = selfEmail :=
  ⟨rfl, rfl, rfl, rfl, rfl⟩

/-- C3: on a run from a freshly-constructed instance in which both
sessions open and a link is found, the run sets the found flag, sets the
sent flag exactly when `sendmail` reports zero failed recipients, and a
non-empty failed-recipients mapping is surfaced that way rather than as an
exception. -/
theorem run_found_sent_iff_no_failures (env : RunEnv) (st : BotState)
    (content : MatchT)
    (h1 : env.imapCreate = none) (h2 : env.smtpCreate = none)
    (h3 : findEmail st.response env.messages = some content)
    (h4 : st.emailSent = false) :
    (runBot env st).state.emailFound = true ∧
    ((runBot env st).state.emailSent = true ↔
      env.failedRecipients.length = 0) ∧
    (runBot env st).raised = none := by
  by_cases hf : env.failedRecipients.length = 0
  · simp [runBot, h1, h2, h3, hf]
  · simp [runBot, h1, h2, h3, hf, h4]

/-- Witness for C3: `run_found_sent_iff_no_failures` applied to a concrete
fresh bot, one three-link message and an empty failed-recipients mapping. -/
theorem run_found_sent_iff_no_failures_witness :
    (runBot envOk stYes).state.emailFound = true ∧
    ((runBot envOk stYes).state.emailSent = true ↔
      envOk.failedRecipients.length = 0) ∧
    (runBot envOk stYes).raised = none :=
  run_found_sent_iff_no_failures envOk stYes
    ⟨"z@uci.edu".data, "s3".data, "b3".data⟩ rfl rfl (by decide) rfl

set_option maxRecDepth 8192 in
set_option maxHeartbeats 1000000 in
/-- Counterexample to C4 as stated: after a fully successful run, a second
run on the same instance that retrieves no messages still reports
`found = true, sent = true` — the flags are never recomputed from scratch,
so the claimed `found=false, sent=false` outcome does not occur. -/
theorem run_result_accumulates_counterexample :
    findEmail (runBot envOk stYes).state.response envEmpty.messages = none ∧
    (runBot envEmpty (runBot envOk stYes).state).state.emailFound = true ∧
    (runBot envEmpty (runBot envOk stYes).state).state.emailSent = true := by
  decide

/-- C4 (amended): the two run-result flags are initialized `false` at
construction and are monotone across runs on the same instance — a run can
raise them to `true` but never clears them, and a run that finds no link
leaves the instance state exactly as it was. -/
theorem run_result_monotone (env : RunEnv) (st : BotState) :
    (st.emailFound = true → (runBot env st).state.emailFound = true) ∧
    (st.emailSent = true → (runBot env st).state.emailSent = true) ∧
    (findEmail st.response env.messages = none → (runBot env st).state = st) := by
  cases hic : env.imapCreate with
  | some e => cases e <;> simp [runBot, hic]
  | none =>
    cases hsc : env.smtpCreate with
    | some e => cases e <;> simp [runBot, hic, hsc]
    | none =>
      cases hfe : findEmail st.response env.messages with
      | none => simp [runBot, hic, hsc, hfe]
      | some c =>
        refine ⟨?_, ?_, ?_⟩
        · intro hfound
          by_cases hf : env.failedRecipients.length = 0 <;>
            simp [runBot, hic, hsc, hfe, hf, hfound]
        · intro hsent
          by_cases hf : env.failedRecipients.length = 0 <;>
            simp [runBot, hic, hsc, hfe, hf, hsent]
        · intro hnone
          exact Option.noConfusion hnone

/-- Witness for C4 (amended): `run_result_monotone` applied to a concrete
instance whose flags are already set and a run that retrieves nothing:
the flags stay `true` and the state is untouched. -/
theorem run_result_monotone_witness :
    (runBot envEmpty stFoundSent).state.emailFound = true ∧
    (runBot envEmpty stFoundSent).state = stFoundSent :=
  ⟨(run_result_monotone envEmpty stFoundSent).1 rfl,
    (run_result_monotone envEmpty stFoundSent).2.2 (by decide)⟩

/-- Counterexample to C5 as stated: on a state whose found flag is `true`
and whose sent flag is `false`, `bot_summary` returns `(false, true)` —
the first component is the sent flag, not the found flag. -/
theorem bot_summary_order_counterexample :
    stFoundNotSent.emailFound = true ∧
    stFoundNotSent.emailSent = false ∧
    botSummary stFoundNotSent = (false, true) ∧
    (botSummary stFoundNotSent).1 ≠ stFoundNotSent.emailFound := by
  decide

/-- C5 (amended): `bot_summary` returns the two run-result booleans in the
order (sent, found): the first component is the sent flag and the second
is the found flag. -/
theorem bot_summary_order (st : BotState) :
    botSummary st = (st.emailSent, st.emailFound) := rfl

/-- Counterexample to C6 as stated: an SMTP authentication failure
(`smtplib.SMTPAuthenticationError` raised while establishing the send
session) is an authentication error on one of the two sessions, yet it is
not caught — `run_bot` propagates it to the caller and prints nothing. -/
theorem smtp_auth_error_propagates_counterexample :
    (runBot envSmtpAuth stYes).raised = some PyExc.smtpAuthError ∧
    (runBot envSmtpAuth stYes).printed = [] := by
  decide

/-- C6 (amended): the two error kinds `run_bot` handles — an IMAP login
rejection, and an address-resolution failure (`socket.gaierror`) while
establishing either session — are caught inside the run: a diagnostic line
is printed to standard output, no exception propagates, the run returns
early with the instance state untouched and no send attempted, and every
session opened before the failure is released exactly once. Other
exceptions, such as an SMTP authentication failure, propagate. -/
theorem handled_connection_errors (env : RunEnv) (st : BotState)
    (h : env.imapCreate = some PyExc.imapLoginError ∨
      env.imapCreate = some PyExc.socketGaierror ∨
      (env.imapCreate = none ∧ env.smtpCreate = some PyExc.socketGaierror)) :
    (runBot env st).raised = none ∧
    (runBot env st).printed ≠ [] ∧
    (runBot env st).state = st ∧
    (runBot env st).sentCall = none ∧
    (runBot env st).imapLogouts = (if (runBot env st).imapOpened then 1 else 0) ∧
    (runBot env st).smtpQuits = (if (runBot env st).smtpOpened then 1 else 0) := by
  rcases h with h | h | ⟨h1, h2⟩
  · simp [runBot, h]
  · simp [runBot, h]
  · simp [runBot, h1, h2]

/-- Witness for C6 (amended): `handled_connection_errors` applied to a
concrete run whose IMAP login is rejected. -/
theorem handled_connection_errors_witness :
    (runBot envImapLogin stYes).raised = none ∧
    (runBot envImapLogin stYes).printed ≠ [] ∧
    (runBot envImapLogin stYes).state = stYes ∧
    (runBot envImapLogin stYes).sentCall = none ∧
    (runBot envImapLogin stYes).imapLogouts =
      (if (runBot envImapLogin stYes).imapOpened then 1 else 0) ∧
    (runBot envImapLogin stYes).smtpQuits =
      (if (runBot envImapLogin stYes).smtpOpened then 1 else 0) :=
  handled_connection_errors envImapLogin stYes (Or.inl rfl)

/-- C7: on every run and every exit path — success, not-found, handled
error, and even a propagating exception — each session that was opened
during the run is released (`logout`/`quit`) exactly once before the run
terminates, and a session that was never opened is never released. -/
theorem sessions_released_once (env : RunEnv) (st : BotState) :
    (runBot env st).imapLogouts = (if (runBot env st).imapOpened then 1 else 0) ∧
    (runBot env st).smtpQuits = (if (runBot env st).smtpOpened then 1 else 0) := by
  cases hic : env.imapCreate with
  | some e => cases e <;> simp [runBot, hic]
  | none =>
    cases hsc : env.smtpCreate with
    | some e => cases e <;> simp [runBot, hic, hsc]
    | none =>
      cases hfe : findEmail st.response env.messages with
      | none => simp [runBot, hic, hsc, hfe]
      | some c =>
        by_cases hf : env.failedRecipients.length = 0 <;>
          simp [runBot, hic, hsc, hfe, hf]

end UciBot
